import Mathlib

/-!
Shallow embedding of `bilibili_api/user.py`: entity facades (`User`,
`ChannelSeries`) and account-scoped free functions that assemble request
parameters, check credential preconditions, and delegate to a request
gateway.  Network effects are modelled by an oracle (`Gateway`) mapping
each issued request to a decoded JSON payload or a typed error; every
operation additionally records the list of requests it issued, in order.
-/

namespace Bili

/-- Decoded JSON payloads, as produced by `json.loads` on the Python side.
Numbers are modelled as integers (the fields exercised here are counts,
ids and codes; no floating point is involved). -/
inductive Json where
  | null
  | bool (b : Bool)
  | num (n : Int)
  | str (s : String)
  | arr (items : List Json)
  | obj (fields : List (String × Json))

/-- Errors surfaced by this layer: credential precondition failures
(`raise_for_no_*`), the gateway's `ResponseCodeException`, `JSONDecodeError`
from `json.loads`, Python `KeyError` / `TypeError` from payload indexing,
and `AssertionError` from `assert` statements. -/
inductive BiliError where
  | credentialNoSessdata
  | credentialNoBiliJct
  | credentialNoDedeUserId
  | responseCode (code : Int) (msg : String)
  | jsonDecode
  | keyError (k : String)
  | typeError
  | assertionError
deriving DecidableEq

/-- One HTTP request as assembled by the facade: method, endpoint url
(stood for by the registry path of the `API` entry), query params, form
data, and whether it went through the standard request gateway
(`utils.network_httpx.request`) or was a direct `httpx` call (the
unauthenticated `ChannelSeries` metadata fetch). -/
structure Request where
  method : String
  url : String
  params : List (String × Json)
  data : List (String × Json)
  viaGateway : Bool

/-- The request gateway / HTTP oracle: what the remote service answers
(or which typed error it raises) for each request. -/
def Gateway : Type := Request → Except BiliError Json

/-- Operation monad: threads the trace of issued requests and propagates
raised errors.  `M α` runs against an already-accumulated trace and
returns the result together with the new trace. -/
def M (α : Type) : Type := List Request → Except BiliError α × List Request

/-- Return a pure value, issuing no request. -/
def M.pure (a : α) : M α := fun tr => (.ok a, tr)

/-- Sequencing: on error the continuation is not run (the exception
propagates), but requests already issued stay in the trace. -/
def M.bind (x : M α) (f : α → M β) : M β := fun tr =>
  match x tr with
  | (.ok a, tr2) => f a tr2
  | (.error e, tr2) => (.error e, tr2)

/-- Lift a pure fallible computation (no request issued). -/
def M.lift (e : Except BiliError α) : M α := fun tr => (e, tr)

/-- Issue one request: record it in the trace and return the oracle's
answer (the call is recorded even when it raises). -/
def M.req (gw : Gateway) (r : Request) : M Json := fun tr => (gw r, tr ++ [r])

/-- Run an operation from an empty trace. -/
def M.run (x : M α) : Except BiliError α × List Request := x []

/-- Python `d[k]` on a decoded payload: key lookup on a dict
(`KeyError` when absent), `TypeError` on any non-dict value
(string indexing with a string key included). -/
def Json.idx (j : Json) (k : String) : Except BiliError Json :=
  match j with
  | .obj fields =>
    match fields.lookup k with
    | some v => .ok v
    | none => .error (.keyError k)
  | _ => .error .typeError

/-- Python `d[k] = v` on a dict: replace the value of an existing key in
place, append a new key at the end.  Item assignment on non-dict values
is never reached on the paths modelled here (indexing has already
raised), so they are returned unchanged. -/
def Json.setKey : Json → String → Json → Json
  | .obj fields, k, v => .obj (setKeyFields fields k v)
  | j, _, _ => j
where
  setKeyFields : List (String × Json) → String → Json → List (String × Json)
    | [], k, v => [(k, v)]
    | (k2, v2) :: rest, k, v =>
      if k2 = k then (k, v) :: rest else (k2, v2) :: setKeyFields rest k v

/-- Is `needle` a contiguous run of `haystack` (Python `in` on strings)? -/
def strContainsSub (haystack needle : List Char) : Bool :=
  match haystack with
  | [] => needle.isEmpty
  | _ :: t => needle.isPrefixOf haystack || strContainsSub t needle

/-- Python `k in j` for a string `k`: key membership on dicts, element
membership on lists (string equality only — a string never equals a
non-string), substring on strings, `TypeError` otherwise. -/
def Json.pyContains (j : Json) (k : String) : Except BiliError Bool :=
  match j with
  | .obj fields => .ok (fields.any (fun p => p.1 = k))
  | .arr items => .ok (items.any (fun x => match x with | .str s => s = k | _ => false))
  | .str s => .ok (strContainsSub s.toList k.toList)
  | _ => .error .typeError

/-- Python iteration `for x in j`: elements of a list, keys of a dict,
one-character strings of a string, `TypeError` otherwise. -/
def Json.pyIter (j : Json) : Except BiliError (List Json) :=
  match j with
  | .arr items => .ok items
  | .obj fields => .ok (fields.map (fun p => .str p.1))
  | .str s => .ok (s.toList.map (fun c => .str (String.mk [c])))
  | _ => .error .typeError

/-- Python integer coercion where an `int` is required (`//`, `%`):
ints pass through, bools are 0/1, anything else is a `TypeError`. -/
def Json.asInt : Json → Except BiliError Int
  | .num n => .ok n
  | .bool b => .ok (if b then 1 else 0)
  | _ => .error .typeError

/-- `json.loads` argument check: only strings are accepted
(`TypeError` otherwise). -/
def Json.asStr : Json → Except BiliError String
  | .str s => .ok s
  | _ => .error .typeError

/-- Python `j == n` against an integer literal: true exactly for a
number (or bool, which is an int) of that value; containers and strings
never equal an int. -/
def Json.pyEqInt (j : Json) (n : Int) : Bool :=
  match j with
  | .num m => m = n
  | .bool b => (if b then (1 : Int) else 0) = n
  | _ => false

mutual
/-- Python `repr` of a decoded payload (used by `str` on containers).
String escaping inside reprs is not exercised by any operation here. -/
def Json.pyRepr : Json → String
  | .null => "None"
  | .bool b => if b then "True" else "False"
  | .num n => toString n
  | .str s => "\x27" ++ s ++ "\x27"
  | .arr items => "[" ++ Json.pyReprItems items ++ "]"
  | .obj fields => "\x7b" ++ Json.pyReprFields fields ++ "\x7d"

/-- Comma-joined reprs of list elements. -/
def Json.pyReprItems : List Json → String
  | [] => ""
  | [x] => Json.pyRepr x
  | x :: xs => Json.pyRepr x ++ ", " ++ Json.pyReprItems xs

/-- Comma-joined reprs of dict entries. -/
def Json.pyReprFields : List (String × Json) → String
  | [] => ""
  | [(k, v)] => "\x27" ++ k ++ "\x27: " ++ Json.pyRepr v
  | (k, v) :: xs => "\x27" ++ k ++ "\x27: " ++ Json.pyRepr v ++ ", " ++ Json.pyReprFields xs
end

/-- Python `str()` of a decoded payload value (as used by
`",".join(map(lambda x: str(x), aids))`). -/
def Json.pyStr : Json → String
  | .null => "None"
  | .bool b => if b then "True" else "False"
  | .num n => toString n
  | .str s => s
  | .arr items => ("[" ++ Json.pyReprItems items ++ "]")
  | .obj fields => ("\x7b" ++ Json.pyReprFields fields ++ "\x7d")

/-- `",".join(map(lambda x: str(x), aids))`. -/
def joinAids (aids : List Json) : String :=
  String.intercalate "," (aids.map Json.pyStr)

/-- Modelled from the spec: the external `Credential` collaborator
(`utils/Credential.py`, not among the sources here) "holds session
identity tokens (session id, CSRF token, user id); exposes presence
checks that fail fast when a required token is absent". -/
structure Credential where
  sessdata : Option String
  bili_jct : Option String
  dedeuserid : Option String

/-- `Credential()`: the empty credential constructed when a caller
supplies none. -/
def Credential.empty : Credential := ⟨none, none, none⟩

/-- Modelled from the spec: `raise_for_no_sessdata` raises the
precondition error when the session token is absent. -/
def Credential.raise_for_no_sessdata (c : Credential) : Except BiliError Unit :=
  if c.sessdata.isSome then .ok () else .error .credentialNoSessdata

/-- Modelled from the spec: `raise_for_no_bili_jct` raises the
precondition error when the cross-site request token is absent. -/
def Credential.raise_for_no_bili_jct (c : Credential) : Except BiliError Unit :=
  if c.bili_jct.isSome then .ok () else .error .credentialNoBiliJct

/-- `RelationType`: user relation operation codes. -/
inductive RelationType where
  | SUBSCRIBE | UNSUBSCRIBE | SUBSCRIBE_SECRETLY | BLOCK | UNBLOCK | REMOVE_FANS
deriving DecidableEq

/-- `.value` of each `RelationType` member. -/
def RelationType.value : RelationType → Int
  | .SUBSCRIBE => 1
  | .UNSUBSCRIBE => 2
  | .SUBSCRIBE_SECRETLY => 3
  | .BLOCK => 5
  | .UNBLOCK => 6
  | .REMOVE_FANS => 7

/-- `ChannelOrder`: sort order for season-shaped collection paging. -/
inductive ChannelOrder where
  | DEFAULT | CHANGE
deriving DecidableEq

/-- `.value` of each `ChannelOrder` member. -/
def ChannelOrder.value : ChannelOrder → String
  | .DEFAULT => "false"
  | .CHANGE => "true"

/-- `ChannelSeriesType`: legacy series (0) vs modern season (1). -/
inductive ChannelSeriesType where
  | SERIES | SEASON
deriving DecidableEq

/-- `.value` of each `ChannelSeriesType` member. -/
def ChannelSeriesType.value : ChannelSeriesType → Nat
  | .SERIES => 0
  | .SEASON => 1

/-- The `User` facade: uid plus credential.  The uid is kept as a decoded
payload value because Python assigns payload fields (`info["mid"]`)
straight into it. -/
structure User where
  uid : Json
  credential : Credential

/-- `User.__init__`: a missing credential is replaced by an empty one. -/
def User.init (uid : Json) (credential : Option Credential) : User :=
  { uid := uid, credential := credential.getD Credential.empty }

/-- Request of `User.set_space_notice`. -/
def setSpaceNoticeReq (content : String) : Request :=
  { method := "POST", url := "user.operate.set_space_notice", params := [],
    data := [("notice", .str content)], viaGateway := true }

/-- `User.set_space_notice`: sessdata and bili_jct checks, then one POST. -/
def User.set_space_notice (gw : Gateway) (u : User) (content : String) : M Json :=
  M.bind (M.lift u.credential.raise_for_no_sessdata) (fun _ =>
  M.bind (M.lift u.credential.raise_for_no_bili_jct) (fun _ =>
  M.req gw (setSpaceNoticeReq content)))

/-- Request of `User.modify_relation`. -/
def modifyRelationReq (uid : Json) (relation : RelationType) : Request :=
  { method := "POST", url := "user.operate.modify", params := [],
    data := [("fid", uid), ("act", .num relation.value), ("re_src", .num 11)],
    viaGateway := true }

/-- `User.modify_relation`: sessdata and bili_jct checks, then one POST. -/
def User.modify_relation (gw : Gateway) (u : User) (relation : RelationType) : M Json :=
  M.bind (M.lift u.credential.raise_for_no_sessdata) (fun _ =>
  M.bind (M.lift u.credential.raise_for_no_bili_jct) (fun _ =>
  M.req gw (modifyRelationReq u.uid relation)))

/-- Request of `User.get_user_medal`. -/
def userMedalReq (uid : Json) : Request :=
  { method := "GET", url := "user.info.user_medal",
    params := [("target_id", uid)], data := [], viaGateway := true }

/-- `User.get_user_medal`: sessdata check only (the bili_jct check is
commented out in the source), then one GET. -/
def User.get_user_medal (gw : Gateway) (u : User) : M Json :=
  M.bind (M.lift u.credential.raise_for_no_sessdata) (fun _ =>
  M.req gw (userMedalReq u.uid))

/-- Request of `get_self_info`. -/
def getSelfInfoReq : Request :=
  { method := "GET", url := "user.info.my_info", params := [], data := [],
    viaGateway := true }

/-- Free function `get_self_info`: sessdata check, then one GET. -/
def get_self_info (gw : Gateway) (credential : Credential) : M Json :=
  M.bind (M.lift credential.raise_for_no_sessdata) (fun _ =>
  M.req gw getSelfInfoReq)

/-- Request of `get_self_history`. -/
def selfHistoryReq (page_num per_page_item : Int) : Request :=
  { method := "GET", url := "user.info.history",
    params := [("pn", .num page_num), ("ps", .num per_page_item)], data := [],
    viaGateway := true }

/-- Free function `get_self_history`: `if not credential` replaces a
missing credential by an empty one; sessdata check, then one GET. -/
def get_self_history (gw : Gateway) (page_num per_page_item : Int)
    (credential : Option Credential) : M Json :=
  let credential := credential.getD Credential.empty
  M.bind (M.lift credential.raise_for_no_sessdata) (fun _ =>
  M.req gw (selfHistoryReq page_num per_page_item))

/-- Request of `create_subscribe_group`. -/
def createSubscribeGroupReq (name : String) : Request :=
  { method := "POST", url := "user.operate.create_subscribe_group",
    params := [], data := [("tag", .str name)], viaGateway := true }

/-- Free function `create_subscribe_group`: sessdata and bili_jct checks,
then one POST. -/
def create_subscribe_group (gw : Gateway) (name : String)
    (credential : Credential) : M Json :=
  M.bind (M.lift credential.raise_for_no_sessdata) (fun _ =>
  M.bind (M.lift credential.raise_for_no_bili_jct) (fun _ =>
  M.req gw (createSubscribeGroupReq name)))

/-- Request of `clear_toview_list`. -/
def clearToviewReq : Request :=
  { method := "POST", url := "toview.operate.clear", params := [], data := [],
    viaGateway := true }

/-- Free function `clear_toview_list`: sessdata and bili_jct checks, then
one POST. -/
def clear_toview_list (gw : Gateway) (credential : Credential) : M Json :=
  M.bind (M.lift credential.raise_for_no_sessdata) (fun _ =>
  M.bind (M.lift credential.raise_for_no_bili_jct) (fun _ =>
  M.req gw clearToviewReq))

/-- Request of `User.get_channel_videos_series` (legacy paging). -/
def channelVideoSeriesReq (uid : Json) (sid pn ps : Int) : Request :=
  { method := "GET", url := "user.info.channel_video_series",
    params := [("mid", uid), ("series_id", .num sid), ("pn", .num pn), ("ps", .num ps)],
    data := [], viaGateway := true }

/-- `User.get_channel_videos_series`: one GET, no credential checks. -/
def User.get_channel_videos_series (gw : Gateway) (u : User) (sid : Int)
    (pn ps : Int) : M Json :=
  M.req gw (channelVideoSeriesReq u.uid sid pn ps)

/-- Request of `User.get_channel_videos_season` (season paging). -/
def channelVideoSeasonReq (uid : Json) (sid : Int) (sort : ChannelOrder)
    (pn ps : Int) : Request :=
  { method := "GET", url := "user.info.channel_video_season",
    params := [("mid", uid), ("season_id", .num sid), ("sort_reverse", .str sort.value),
               ("page_num", .num pn), ("page_size", .num ps)],
    data := [], viaGateway := true }

/-- `User.get_channel_videos_season`: one GET, the sort order is
forwarded as `sort_reverse`. -/
def User.get_channel_videos_season (gw : Gateway) (u : User) (sid : Int)
    (sort : ChannelOrder) (pn ps : Int) : M Json :=
  M.req gw (channelVideoSeasonReq u.uid sid sort pn ps)

/-- Request of `User.get_channel_list`; the page size of the second
request comes from the first response, so it is a payload value. -/
def channelListReq (uid : Json) (page_size : Json) : Request :=
  { method := "GET", url := "user.info.channel_list",
    params := [("mid", uid), ("page_num", .num 1), ("page_size", page_size)],
    data := [], viaGateway := true }

/-- `User.get_channel_list`: probe with page_size 1, read
`res["items_lists"]["page"]["total"]`, sleep 0.5 s (a fixed delay with no
effect in this embedding), replace a total of 0 by 1, refetch with that
page size. -/
def User.get_channel_list (gw : Gateway) (u : User) : M Json :=
  M.bind (M.req gw (channelListReq u.uid (.num 1))) (fun res =>
  M.bind (M.lift (res.idx "items_lists")) (fun il =>
  M.bind (M.lift (il.idx "page")) (fun pg =>
  M.bind (M.lift (pg.idx "total")) (fun items0 =>
  let items := if items0.pyEqInt 0 then Json.num 1 else items0
  M.req gw (channelListReq u.uid items)))))

/-- Request of `User.get_dynamics`. -/
def dynamicsReq (uid : Json) (offset : Int) (need_top : Bool) : Request :=
  { method := "GET", url := "user.info.dynamic",
    params := [("host_uid", uid), ("offset_dynamic_id", .num offset),
               ("need_top", .num (if need_top then 1 else 0))],
    data := [], viaGateway := true }

/-- `json.loads(j)`: the argument must be a string; a malformed string is
a `JSONDecodeError`.  `decode` is the external JSON text parser. -/
def pyJsonLoads (decode : String → Option Json) (j : Json) : Except BiliError Json :=
  match j.asStr with
  | .error e => .error e
  | .ok s =>
    match decode s with
    | some v => .ok v
    | none => .error .jsonDecode

/-- Loop body of `get_dynamics`:
`card["card"] = json.loads(card["card"])` then
`card["extend_json"] = json.loads(card["extend_json"])`. -/
def processCard (decode : String → Option Json) (card : Json) : Except BiliError Json :=
  match card.idx "card" with
  | .error e => .error e
  | .ok c =>
    match pyJsonLoads decode c with
    | .error e => .error e
    | .ok cv =>
      let card := card.setKey "card" cv
      match card.idx "extend_json" with
      | .error e => .error e
      | .ok ej =>
        match pyJsonLoads decode ej with
        | .error e => .error e
        | .ok ev => .ok (card.setKey "extend_json" ev)

/-- `for card in data["cards"]: ...` — the whole loop over the "cards"
container.  Iterating a list maps the body over the items; iterating a
non-empty dict or string makes `card["card"]` raise `TypeError` (the
loop variable is a string); empty dicts and strings run the body zero
times and leave the container untouched; other values cannot be
iterated. -/
def processCards (decode : String → Option Json) (cardsJ : Json) : Except BiliError Json :=
  match cardsJ with
  | .arr items =>
    match items.mapM (processCard decode) with
    | .ok items2 => .ok (.arr items2)
    | .error e => .error e
  | .obj [] => .ok (.obj [])
  | .obj (_ :: _) => .error .typeError
  | .str s => if s.isEmpty then .ok (.str s) else .error .typeError
  | _ => .error .typeError

/-- `User.get_dynamics`: one GET, then if `"cards" in data` parse the two
string-encoded JSON fields of each card in place. -/
def User.get_dynamics (decode : String → Option Json) (gw : Gateway) (u : User)
    (offset : Int) (need_top : Bool) : M Json :=
  M.bind (M.req gw (dynamicsReq u.uid offset need_top)) (fun data =>
  M.lift (
    match data.pyContains "cards" with
    | .error e => .error e
    | .ok false => .ok data
    | .ok true =>
      match data.idx "cards" with
      | .error e => .error e
      | .ok cardsJ =>
        match processCards decode cardsJ with
        | .error e => .error e
        | .ok cards2 => .ok (data.setKey "cards" cards2)))

/-- Request of `check_nickname`. -/
def checkNicknameReq (nick_name : String) : Request :=
  { method := "GET", url := "common.nickname.check_nickname",
    params := [("nickName", .str nick_name)], data := [], viaGateway := true }

/-- Modelled from the spec: `str()` of the gateway's typed
`ResponseCodeException` (`exceptions` module, not among the sources
here), "a typed error carrying the remote status code" — a fixed text
rendering of the remote numeric code and message. -/
def responseCodeMessage (code : Int) (msg : String) : String :=
  "Response code error: " ++ toString code ++ ": " ++ msg

/-- Free function `check_nickname`: one GET inside
`try ... except ResponseCodeException as e: return False, str(e)`;
success yields `(True, "")`, a response-code error yields
`(False, str(e))`, every other error propagates. -/
def check_nickname (gw : Gateway) (nick_name : String) : M (Bool × String) :=
  fun tr =>
    match gw (checkNicknameReq nick_name) with
    | .ok _ => (.ok (true, ""), tr ++ [checkNicknameReq nick_name])
    | .error (.responseCode code msg) =>
      (.ok (false, responseCodeMessage code msg), tr ++ [checkNicknameReq nick_name])
    | .error e => (.error e, tr ++ [checkNicknameReq nick_name])

/-- The unauthenticated series metadata fetch
(`httpx.get(API["channel_series"]["info"]["url"], params={"series_id": id_})`
followed by `json.loads`), issued directly, not via the gateway. -/
def seriesInfoReq (id_ : Int) : Request :=
  { method := "GET", url := "channel_series.info",
    params := [("series_id", .num id_)], data := [], viaGateway := false }

/-- The unauthenticated season metadata fetch. -/
def seasonInfoReq (id_ : Int) : Request :=
  { method := "GET", url := "channel_series.season_info",
    params := [("season_id", .num id_)], data := [], viaGateway := false }

/-- The `ChannelSeries` facade after construction. -/
structure ChannelSeries where
  uid : Json
  is_new : Nat
  id_ : Int
  owner : User
  credential : Option Credential
  meta : Json

/-- `ChannelSeries.__init__`: assert `id_ != -1` then `type_ != None`;
when no metadata snapshot is supplied, perform the direct unauthenticated
fetch (`hf` is the oracle for it), take its `"data"` field, and resolve
`meta` and the owning uid from it (season: `info` with `mid` copied from
`upper.mid`; series: `meta` with its `mid`). -/
def ChannelSeries.init (hf : Gateway) (uid : Json) (type_ : Option ChannelSeriesType)
    (id_ : Int) (credential : Option Credential) (meta : Option Json) : M ChannelSeries :=
  if id_ = -1 then M.lift (.error .assertionError)
  else
    match type_ with
    | none => M.lift (.error .assertionError)
    | some t =>
      let is_new := t.value
      match meta with
      | some m =>
        M.pure { uid := uid, is_new := is_new, id_ := id_,
                 owner := User.init uid credential, credential := credential, meta := m }
      | none =>
        if is_new ≠ 0 then
          M.bind (M.req hf (seasonInfoReq id_)) (fun resp =>
          M.bind (M.lift (resp.idx "data")) (fun d =>
          M.bind (M.lift (d.idx "info")) (fun info =>
          M.bind (M.lift (d.idx "upper")) (fun upper =>
          M.bind (M.lift (upper.idx "mid")) (fun mid =>
          M.pure { uid := mid, is_new := is_new, id_ := id_,
                   owner := User.init mid credential, credential := credential,
                   meta := info.setKey "mid" mid })))))
        else
          M.bind (M.req hf (seriesInfoReq id_)) (fun resp =>
          M.bind (M.lift (resp.idx "data")) (fun d =>
          M.bind (M.lift (d.idx "meta")) (fun m =>
          M.bind (M.lift (m.idx "mid")) (fun mid =>
          M.pure { uid := mid, is_new := is_new, id_ := id_,
                   owner := User.init mid credential, credential := credential,
                   meta := m }))))

/-- `ChannelSeries.get_meta`. -/
def ChannelSeries.get_meta (cs : ChannelSeries) : Json := cs.meta

/-- `ChannelSeries.get_videos`: dispatch on the variant; the legacy path
does not receive the sort argument. -/
def ChannelSeries.get_videos (gw : Gateway) (cs : ChannelSeries)
    (sort : ChannelOrder) (pn ps : Int) : M Json :=
  if cs.is_new ≠ 0 then
    User.get_channel_videos_season gw cs.owner cs.id_ sort pn ps
  else
    User.get_channel_videos_series gw cs.owner cs.id_ pn ps

/-- Python `range(a, b)` over integers. -/
def pyRange (a b : Int) : List Int :=
  (List.range (b - a).toNat).map (fun i => a + i)

/-- The page walk of `del_channel_series`:
`for page in range(1, pages + 1): ... for aid in page_info["aids"]:
aids.append(aid)` — fetch each page with page size 20 and accumulate the
aids in page order. -/
def walkSeriesPages (gw : Gateway) (credential : Credential) (self_uid : Json)
    (series_id : Int) : List Int → M (List Json)
  | [] => M.pure []
  | page :: rest =>
    M.bind (User.get_channel_videos_series gw (User.init self_uid (some credential))
              series_id page 20) (fun page_info =>
    M.bind (M.lift (page_info.idx "aids")) (fun aidsJ =>
    M.bind (M.lift aidsJ.pyIter) (fun pageAids =>
    M.bind (walkSeriesPages gw credential self_uid series_id rest) (fun restAids =>
    M.pure (pageAids ++ restAids)))))

/-- The final deletion request of `del_channel_series`. -/
def delChannelSeriesReq (self_uid : Json) (series_id : Int) (aids : List Json) : Request :=
  { method := "POST", url := "channel_series.del_channel_series", params := [],
    data := [("mid", self_uid), ("series_id", .num series_id),
             ("aids", .str (joinAids aids))],
    viaGateway := true }

/-- Free function `del_channel_series`: credential checks, construct a
legacy `ChannelSeries` (triggering its metadata fetch) to read the
member total, fetch self info for the own uid, walk pages
`1 .. total // 20 + (1 if total % 20 != 0 else 0)` with page size 20
accumulating aids, then POST the deletion with the joined aid list. -/
def del_channel_series (hf gw : Gateway) (series_id : Int)
    (credential : Credential) : M Json :=
  M.bind (M.lift credential.raise_for_no_sessdata) (fun _ =>
  M.bind (M.lift credential.raise_for_no_bili_jct) (fun _ =>
  M.bind (ChannelSeries.init hf (.num (-1)) (some .SERIES) series_id
            (some credential) none) (fun cs =>
  M.bind (M.lift (cs.get_meta.idx "total")) (fun totalJ =>
  M.bind (M.lift totalJ.asInt) (fun series_total =>
  M.bind (get_self_info gw credential) (fun info =>
  M.bind (M.lift (info.idx "mid")) (fun self_uid =>
  let pages := series_total.fdiv 20 + (if series_total.emod 20 ≠ 0 then 1 else 0)
  M.bind (walkSeriesPages gw credential self_uid series_id (pyRange 1 (pages + 1)))
    (fun aids =>
  M.req gw (delChannelSeriesReq self_uid series_id aids)))))))))

/-! Concrete oracles and payloads used to evaluate the development on
closed inputs. -/

/-- A gateway that answers every request with `null`. -/
def demoOkGateway : Gateway := fun _ => .ok Json.null

/-- A gateway that rejects every request with a remote response-code
error (e.g. "nickname is taken"). -/
def demoRCGateway : Gateway := fun _ => .error (.responseCode 40014 "nickname is taken")

/-- A gateway that fails every request with a JSON decode error. -/
def demoJDGateway : Gateway := fun _ => .error .jsonDecode

/-- A credential holding all three tokens. -/
def demoCred : Credential := ⟨some "sess", some "jct", some "uid"⟩

/-- A credential with a session token but no cross-site token. -/
def demoCredNoJct : Credential := ⟨some "sess", none, none⟩

/-- A dynamics payload whose single card carries string-encoded JSON
fields (the strings decode to an object with one field and to an empty
object). -/
def demoCardsPayload : Json :=
  .obj [("cards", .arr [.obj [("card", .str "\x7b\"a\":1\x7d"),
                              ("extend_json", .str "\x7b\x7d")]])]

/-- A gateway returning `demoCardsPayload` for every request. -/
def demoDynGateway : Gateway := fun _ => .ok demoCardsPayload

/-- A concrete JSON text parser covering exactly the two strings of
`demoCardsPayload`; everything else is a decode failure. -/
def demoDecode : String → Option Json := fun s =>
  if s = "\x7b\"a\":1\x7d" then some (.obj [("a", .num 1)])
  else if s = "\x7b\x7d" then some (.obj [])
  else none

/-- A dynamics payload whose card field is not valid JSON text. -/
def demoBadCardsPayload : Json :=
  .obj [("cards", .arr [.obj [("card", .str "not json"),
                              ("extend_json", .str "\x7b\x7d")]])]

/-- A gateway returning `demoBadCardsPayload` for every request. -/
def demoBadDynGateway : Gateway := fun _ => .ok demoBadCardsPayload

/-- A channel-list payload reporting a total of 5 items. -/
def demoChannelListPayload : Json :=
  .obj [("items_lists", .obj [("page", .obj [("total", .num 5)]),
                              ("seasons_list", .arr []), ("series_list", .arr [])])]

/-- A gateway returning `demoChannelListPayload` for every request. -/
def demoChannelGateway : Gateway := fun _ => .ok demoChannelListPayload

/-- A channel-list payload reporting a total of 0 items. -/
def demoChannelListEmptyPayload : Json :=
  .obj [("items_lists", .obj [("page", .obj [("total", .num 0)]),
                              ("seasons_list", .arr []), ("series_list", .arr [])])]

/-- A gateway returning `demoChannelListEmptyPayload` for every request. -/
def demoChannelEmptyGateway : Gateway := fun _ => .ok demoChannelListEmptyPayload

/-- A series metadata fetch response: owner mid 7, member total 25. -/
def demoSeriesMetaResp : Json :=
  .obj [("data", .obj [("meta", .obj [("mid", .num 7), ("total", .num 25)])])]

/-- A direct-fetch oracle returning `demoSeriesMetaResp`. -/
def demoHf : Gateway := fun _ => .ok demoSeriesMetaResp

/-- A gateway whose every answer carries both a `mid` (self info) and an
`aids` page (two member videos). -/
def demoPageGateway : Gateway :=
  fun _ => .ok (.obj [("mid", .num 7), ("aids", .arr [.num 101, .num 102])])

/-- A legacy-variant `ChannelSeries` as built from a metadata snapshot. -/
def demoSeriesCS : ChannelSeries :=
  ⟨.num 5, 0, 9, User.init (.num 5) none, none, .null⟩

/-- A season-variant `ChannelSeries` as built from a metadata snapshot. -/
def demoSeasonCS : ChannelSeries :=
  ⟨.num 5, 1, 9, User.init (.num 5) none, none, .null⟩

/-- A dict containing a key (witnessed by a successful lookup) answers
`True` to Python `in`. -/
theorem pyContains_of_lookup (k : String) (v : Json) :
    ∀ (fields : List (String × Json)), fields.lookup k = some v →
      (Json.obj fields).pyContains k = .ok true
  | [], h => by simp [List.lookup] at h
  | (k2, v2) :: tl, h => by
      rw [List.lookup] at h
      by_cases hk : k = k2
      · simp [Json.pyContains, hk]
      · have hbeq : (k == k2) = false := by simpa using hk
        rw [hbeq] at h
        have ih := pyContains_of_lookup k v tl h
        simp only [Json.pyContains, Except.ok.injEq] at ih ⊢
        simp only [List.any_cons, ih, Bool.or_true]

/-- C9: constructing a `ChannelSeries` with the collection id left at its
default (-1), or with the variant set to `None`, fails the assertion
before any metadata fetch or gateway request (the trace stays empty);
only a supplied id together with a supplied variant gets past the
asserts. -/
theorem C9_init_asserts (hf : Gateway) (uid : Json) (type_ : Option ChannelSeriesType)
    (id_ : Int) (cred : Option Credential) (meta : Option Json) :
    (ChannelSeries.init hf uid type_ (-1) cred meta).run =
      (.error .assertionError, []) ∧
    (ChannelSeries.init hf uid none id_ cred meta).run =
      (.error .assertionError, []) := by
  constructor
  · simp [ChannelSeries.init, M.run, M.lift]
  · by_cases h : id_ = -1 <;> simp [ChannelSeries.init, M.run, M.lift, h]

/-- C1: every operation requiring a session token, called with a
credential lacking it, raises the sessdata precondition error with an
empty request trace (zero gateway calls); and the write operations,
called with a session token but no cross-site token, raise the bili_jct
precondition error, again with an empty trace. -/
theorem C1_credential_guard (c c2 : Credential) (h : c.sessdata = none)
    (h2 : c2.sessdata.isSome) (h3 : c2.bili_jct = none)
    (gw hf : Gateway) (uid : Json) (content : String) (relation : RelationType)
    (pn ps : Int) (name : String) (sid : Int) :
    ((User.set_space_notice gw (User.init uid (some c)) content).run =
        (.error .credentialNoSessdata, []) ∧
     (User.modify_relation gw (User.init uid (some c)) relation).run =
        (.error .credentialNoSessdata, []) ∧
     (User.get_user_medal gw (User.init uid (some c))).run =
        (.error .credentialNoSessdata, []) ∧
     (get_self_info gw c).run = (.error .credentialNoSessdata, []) ∧
     (get_self_history gw pn ps (some c)).run = (.error .credentialNoSessdata, []) ∧
     (create_subscribe_group gw name c).run = (.error .credentialNoSessdata, []) ∧
     (clear_toview_list gw c).run = (.error .credentialNoSessdata, []) ∧
     (del_channel_series hf gw sid c).run = (.error .credentialNoSessdata, [])) ∧
    ((User.set_space_notice gw (User.init uid (some c2)) content).run =
        (.error .credentialNoBiliJct, []) ∧
     (User.modify_relation gw (User.init uid (some c2)) relation).run =
        (.error .credentialNoBiliJct, []) ∧
     (create_subscribe_group gw name c2).run = (.error .credentialNoBiliJct, []) ∧
     (clear_toview_list gw c2).run = (.error .credentialNoBiliJct, []) ∧
     (del_channel_series hf gw sid c2).run = (.error .credentialNoBiliJct, [])) := by
  simp [User.set_space_notice, User.modify_relation, User.get_user_medal,
        get_self_info, get_self_history, create_subscribe_group,
        clear_toview_list, del_channel_series, User.init,
        Credential.raise_for_no_sessdata, Credential.raise_for_no_bili_jct,
        M.run, M.bind, M.lift, M.req, h, h2, h3]

/-- Closed instance of C1: evaluated on the empty credential and on a
sessdata-only credential, with a gateway that would accept anything. -/
theorem C1_credential_guard_witness :
    ((User.set_space_notice demoOkGateway (User.init (Json.num 2) (some Credential.empty)) "hi").run =
        (.error .credentialNoSessdata, []) ∧
     (User.modify_relation demoOkGateway (User.init (Json.num 2) (some Credential.empty)) .SUBSCRIBE).run =
        (.error .credentialNoSessdata, []) ∧
     (User.get_user_medal demoOkGateway (User.init (Json.num 2) (some Credential.empty))).run =
        (.error .credentialNoSessdata, []) ∧
     (get_self_info demoOkGateway Credential.empty).run = (.error .credentialNoSessdata, []) ∧
     (get_self_history demoOkGateway 1 100 (some Credential.empty)).run =
        (.error .credentialNoSessdata, []) ∧
     (create_subscribe_group demoOkGateway "grp" Credential.empty).run =
        (.error .credentialNoSessdata, []) ∧
     (clear_toview_list demoOkGateway Credential.empty).run =
        (.error .credentialNoSessdata, []) ∧
     (del_channel_series demoOkGateway demoOkGateway 5 Credential.empty).run =
        (.error .credentialNoSessdata, [])) ∧
    ((User.set_space_notice demoOkGateway (User.init (Json.num 2) (some demoCredNoJct)) "hi").run =
        (.error .credentialNoBiliJct, []) ∧
     (User.modify_relation demoOkGateway (User.init (Json.num 2) (some demoCredNoJct)) .SUBSCRIBE).run =
        (.error .credentialNoBiliJct, []) ∧
     (create_subscribe_group demoOkGateway "grp" demoCredNoJct).run =
        (.error .credentialNoBiliJct, []) ∧
     (clear_toview_list demoOkGateway demoCredNoJct).run =
        (.error .credentialNoBiliJct, []) ∧
     (del_channel_series demoOkGateway demoOkGateway 5 demoCredNoJct).run =
        (.error .credentialNoBiliJct, [])) :=
  C1_credential_guard Credential.empty demoCredNoJct rfl rfl rfl
    demoOkGateway demoOkGateway (Json.num 2) "hi" .SUBSCRIBE 1 100 "grp" 5

/-- C2: when the first channel-list response reports a total above 1, the
operation issues exactly two gateway fetches — the first with page size 1
and the second with page size equal to that total — and returns the
gateway's answer to the second. -/
theorem C2_channel_list_two_fetches (gw : Gateway) (uid : Json) (cred : Option Credential)
    (res il pg : Json) (t : Int)
    (h1 : gw (channelListReq uid (.num 1)) = .ok res)
    (h2 : res.idx "items_lists" = .ok il)
    (h3 : il.idx "page" = .ok pg)
    (h4 : pg.idx "total" = .ok (.num t))
    (ht : 1 < t) :
    (User.get_channel_list gw (User.init uid cred)).run =
      (gw (channelListReq uid (.num t)),
       [channelListReq uid (.num 1), channelListReq uid (.num t)]) := by
  have hne : t ≠ 0 := by omega
  simp [User.get_channel_list, User.init, M.run, M.bind, M.req, M.lift,
        h1, h2, h3, h4, Json.pyEqInt, hne]

/-- Closed instance of C2: a payload reporting 5 items makes the second
fetch request page size 5. -/
theorem C2_channel_list_two_fetches_witness :
    (User.get_channel_list demoChannelGateway (User.init (Json.num 2) none)).run =
      (.ok demoChannelListPayload,
       [channelListReq (Json.num 2) (.num 1), channelListReq (Json.num 2) (.num 5)]) :=
  C2_channel_list_two_fetches demoChannelGateway (Json.num 2) none
    demoChannelListPayload _ _ 5 rfl rfl rfl rfl (by norm_num)

/-- C10: when the first channel-list response reports a total of 0, the
second fetch is still issued, with the requested page size replaced by 1,
and its response is returned. -/
theorem C10_channel_list_zero_total (gw : Gateway) (uid : Json) (cred : Option Credential)
    (res il pg : Json)
    (h1 : gw (channelListReq uid (.num 1)) = .ok res)
    (h2 : res.idx "items_lists" = .ok il)
    (h3 : il.idx "page" = .ok pg)
    (h4 : pg.idx "total" = .ok (.num 0)) :
    (User.get_channel_list gw (User.init uid cred)).run =
      (gw (channelListReq uid (.num 1)),
       [channelListReq uid (.num 1), channelListReq uid (.num 1)]) := by
  simp [User.get_channel_list, User.init, M.run, M.bind, M.req, M.lift,
        h1, h2, h3, h4, Json.pyEqInt]

/-- Closed instance of C10: a payload reporting 0 items still triggers a
second fetch, sized 1. -/
theorem C10_channel_list_zero_total_witness :
    (User.get_channel_list demoChannelEmptyGateway (User.init (Json.num 2) none)).run =
      (.ok demoChannelListEmptyPayload,
       [channelListReq (Json.num 2) (.num 1), channelListReq (Json.num 2) (.num 1)]) :=
  C10_channel_list_zero_total demoChannelEmptyGateway (Json.num 2) none
    demoChannelListEmptyPayload _ _ rfl rfl rfl rfl

/-- C4: on a payload whose "cards" list has every card's `card` and
`extend_json` fields processed successfully (each a string holding valid
JSON text), `get_dynamics` returns the payload with the cards replaced by
their processed versions — the two string fields parsed into structured
values — after its single gateway fetch. -/
theorem C4_dynamics_parses (decode : String → Option Json) (gw : Gateway)
    (uid : Json) (cred : Option Credential) (offset : Int) (need_top : Bool)
    (fields : List (String × Json)) (cards cards2 : List Json)
    (hgw : gw (dynamicsReq uid offset need_top) = .ok (.obj fields))
    (hcards : fields.lookup "cards" = some (.arr cards))
    (hmap : cards.mapM (processCard decode) = .ok cards2) :
    (User.get_dynamics decode gw (User.init uid cred) offset need_top).run =
      (.ok ((Json.obj fields).setKey "cards" (.arr cards2)),
       [dynamicsReq uid offset need_top]) := by
  have hc := pyContains_of_lookup "cards" (.arr cards) fields hcards
  have hpc : processCards decode (Json.arr cards) = .ok (.arr cards2) := by
    unfold processCards; simp only [hmap]
  simp [User.get_dynamics, User.init, M.run, M.bind, M.req, M.lift, hgw, hc,
        Json.idx, hcards, hpc]

/-- Closed instance of C4: on
`{"cards": [{"card": "{\"a\":1}", "extend_json": "{}"}]}` the resulting
item has `card == {"a": 1}` and `extend_json == {}`. -/
theorem C4_dynamics_parses_witness :
    (User.get_dynamics demoDecode demoDynGateway (User.init (Json.num 2) none) 0 false).run =
      (.ok (Json.obj [("cards", Json.arr [Json.obj
          [("card", Json.obj [("a", Json.num 1)]), ("extend_json", Json.obj [])]])]),
       [dynamicsReq (Json.num 2) 0 false]) := by
  have h := C4_dynamics_parses demoDecode demoDynGateway (Json.num 2) none 0 false
      _ _ _ rfl rfl rfl
  exact h

/-- C8: when processing the "cards" list hits a string field that is not
valid JSON text, the `JSONDecodeError` raised by `json.loads` propagates
out of `get_dynamics` unchanged — it is not caught, swallowed, or
converted. -/
theorem C8_dynamics_decode_error (decode : String → Option Json) (gw : Gateway)
    (uid : Json) (cred : Option Credential) (offset : Int) (need_top : Bool)
    (fields : List (String × Json)) (cards : List Json)
    (hgw : gw (dynamicsReq uid offset need_top) = .ok (.obj fields))
    (hcards : fields.lookup "cards" = some (.arr cards))
    (hmap : cards.mapM (processCard decode) = .error .jsonDecode) :
    (User.get_dynamics decode gw (User.init uid cred) offset need_top).run =
      (.error .jsonDecode, [dynamicsReq uid offset need_top]) := by
  have hc := pyContains_of_lookup "cards" (.arr cards) fields hcards
  have hpc : processCards decode (Json.arr cards) = .error .jsonDecode := by
    unfold processCards; simp only [hmap]
  simp [User.get_dynamics, User.init, M.run, M.bind, M.req, M.lift, hgw, hc,
        Json.idx, hcards, hpc]

/-- Closed instance of C8: a card whose `card` field holds unparsable
text makes `get_dynamics` raise the decode error. -/
theorem C8_dynamics_decode_error_witness :
    (User.get_dynamics demoDecode demoBadDynGateway (User.init (Json.num 2) none) 0 false).run =
      (.error .jsonDecode, [dynamicsReq (Json.num 2) 0 false]) :=
  C8_dynamics_decode_error demoDecode demoBadDynGateway (Json.num 2) none 0 false
    _ _ rfl rfl rfl

/-- C5: `check_nickname` returns `(True, "")` when the gateway call
succeeds; a remote response-code rejection is converted into
`(False, str(e))` with a non-empty reason instead of raising; every
error of any other kind propagates unchanged. -/
theorem C5_check_nickname_behavior (gw : Gateway) (nick : String) :
    (∀ v, gw (checkNicknameReq nick) = .ok v →
       (check_nickname gw nick).run = (.ok (true, ""), [checkNicknameReq nick])) ∧
    (∀ code msg, gw (checkNicknameReq nick) = .error (.responseCode code msg) →
       (check_nickname gw nick).run =
         (.ok (false, responseCodeMessage code msg), [checkNicknameReq nick]) ∧
       responseCodeMessage code msg ≠ "") ∧
    (∀ e, gw (checkNicknameReq nick) = .error e →
       (∀ code msg, e ≠ .responseCode code msg) →
       (check_nickname gw nick).run = (.error e, [checkNicknameReq nick])) := by
  refine ⟨?_, ?_, ?_⟩
  · intro v hv
    simp [check_nickname, M.run, hv]
  · intro code msg hv
    refine ⟨by simp [check_nickname, M.run, hv], ?_⟩
    intro hempty
    have hlen := congrArg String.length hempty
    have h21 : ("Response code error: " : String).length = 21 := rfl
    have h0 : ("" : String).length = 0 := rfl
    rw [responseCodeMessage] at hlen
    rw [String.length_append, String.length_append, String.length_append,
        h21, h0] at hlen
    omega
  · intro e hv hne
    match e, hv with
    | .responseCode code msg, hv => exact absurd rfl (hne code msg)
    | .credentialNoSessdata, hv => simp [check_nickname, M.run, hv]
    | .credentialNoBiliJct, hv => simp [check_nickname, M.run, hv]
    | .credentialNoDedeUserId, hv => simp [check_nickname, M.run, hv]
    | .jsonDecode, hv => simp [check_nickname, M.run, hv]
    | .keyError k, hv => simp [check_nickname, M.run, hv]
    | .typeError, hv => simp [check_nickname, M.run, hv]
    | .assertionError, hv => simp [check_nickname, M.run, hv]

/-- Closed instance of C5: acceptance, a remote rejection (converted,
non-empty reason), and an unrelated error kind (propagated). -/
theorem C5_check_nickname_behavior_witness :
    (check_nickname demoOkGateway "nick").run =
      (.ok (true, ""), [checkNicknameReq "nick"]) ∧
    ((check_nickname demoRCGateway "nick").run =
       (.ok (false, responseCodeMessage 40014 "nickname is taken"),
        [checkNicknameReq "nick"]) ∧
     responseCodeMessage 40014 "nickname is taken" ≠ "") ∧
    (check_nickname demoJDGateway "nick").run =
      (.error .jsonDecode, [checkNicknameReq "nick"]) :=
  ⟨(C5_check_nickname_behavior demoOkGateway "nick").1 Json.null rfl,
   (C5_check_nickname_behavior demoRCGateway "nick").2.1 40014 "nickname is taken" rfl,
   (C5_check_nickname_behavior demoJDGateway "nick").2.2 .jsonDecode rfl
     (fun _ _ h => BiliError.noConfusion h)⟩

/-- C6: a legacy-variant `ChannelSeries` constructed without a metadata
snapshot performs the one unauthenticated metadata fetch (recorded with
`viaGateway = false`) and resolves both its uid and its owner `User` to
the `mid` field of the fetched metadata, discarding the uid argument. -/
theorem C6_series_owner_resolution (hf : Gateway) (uid0 : Json) (id_ : Int)
    (hne : id_ ≠ -1) (cred : Option Credential) (resp d m mid : Json)
    (hfetch : hf (seriesInfoReq id_) = .ok resp)
    (hdata : resp.idx "data" = .ok d)
    (hmeta : d.idx "meta" = .ok m)
    (hmid : m.idx "mid" = .ok mid) :
    (ChannelSeries.init hf uid0 (some .SERIES) id_ cred none).run =
      (.ok { uid := mid, is_new := 0, id_ := id_, owner := User.init mid cred,
             credential := cred, meta := m },
       [seriesInfoReq id_]) := by
  simp [ChannelSeries.init, M.run, M.bind, M.req, M.lift, M.pure, hne,
        hfetch, hdata, hmeta, hmid, ChannelSeriesType.value]

/-- Closed instance of C6: with no owner uid supplied (left at -1), the
owner resolves to mid 7 from the fetched metadata. -/
theorem C6_series_owner_resolution_witness :
    (ChannelSeries.init demoHf (Json.num (-1)) (some .SERIES) 9 none none).run =
      (.ok { uid := Json.num 7, is_new := 0, id_ := 9,
             owner := User.init (Json.num 7) none, credential := none,
             meta := Json.obj [("mid", Json.num 7), ("total", Json.num 25)] },
       [seriesInfoReq 9]) := by
  have h := C6_series_owner_resolution demoHf (Json.num (-1)) 9 (by norm_num)
      none _ _ _ _ rfl rfl rfl rfl
  exact h

/-- C7: on the legacy (series) variant the result of `get_videos` is
independent of the sort argument — the issued request and the returned
payload are identical for any two sorts, the request carrying no sort
parameter — while the season variant forwards the sort value as
`sort_reverse`. -/
theorem C7_sort_ignored_on_series (gw : Gateway) (cs csn : ChannelSeries)
    (h0 : cs.is_new = 0) (h1 : csn.is_new = 1)
    (sort1 sort2 sort : ChannelOrder) (pn ps : Int) :
    (ChannelSeries.get_videos gw cs sort1 pn ps).run =
      (ChannelSeries.get_videos gw cs sort2 pn ps).run ∧
    (ChannelSeries.get_videos gw cs sort1 pn ps).run =
      (gw (channelVideoSeriesReq cs.owner.uid cs.id_ pn ps),
       [channelVideoSeriesReq cs.owner.uid cs.id_ pn ps]) ∧
    (ChannelSeries.get_videos gw csn sort pn ps).run =
      (gw (channelVideoSeasonReq csn.owner.uid csn.id_ sort pn ps),
       [channelVideoSeasonReq csn.owner.uid csn.id_ sort pn ps]) := by
  simp [ChannelSeries.get_videos, User.get_channel_videos_series,
        User.get_channel_videos_season, M.run, M.req, h0, h1]

/-- Closed instance of C7: both sorts on the legacy variant give the same
run; the season variant forwards the sort. -/
theorem C7_sort_ignored_on_series_witness :
    (ChannelSeries.get_videos demoOkGateway demoSeriesCS .DEFAULT 1 100).run =
      (ChannelSeries.get_videos demoOkGateway demoSeriesCS .CHANGE 1 100).run ∧
    (ChannelSeries.get_videos demoOkGateway demoSeriesCS .DEFAULT 1 100).run =
      (.ok Json.null, [channelVideoSeriesReq (Json.num 5) 9 1 100]) ∧
    (ChannelSeries.get_videos demoOkGateway demoSeasonCS .CHANGE 1 100).run =
      (.ok Json.null, [channelVideoSeasonReq (Json.num 5) 9 .CHANGE 1 100]) := by
  have h := C7_sort_ignored_on_series demoOkGateway demoSeriesCS demoSeasonCS
      rfl rfl .DEFAULT .CHANGE .CHANGE 1 100
  exact h

/-- The page walk of `del_channel_series`: when every page request in the
list is answered with a payload whose `aids` field is a list, the walk
returns the concatenation of those lists in page order and appends
exactly one request per page, in order, each with page size 20. -/
theorem walkSeriesPages_spec (gw : Gateway) (cred : Credential) (muid : Json)
    (sid : Int) (pageResp : Int → Json) (A : Int → List Json) :
    ∀ (ps : List Int),
      (∀ p ∈ ps, gw (channelVideoSeriesReq muid sid p 20) = .ok (pageResp p) ∧
                 (pageResp p).idx "aids" = .ok (.arr (A p))) →
      ∀ tr, walkSeriesPages gw cred muid sid ps tr =
        (.ok ((ps.map A).flatten),
         tr ++ ps.map (fun p => channelVideoSeriesReq muid sid p 20))
  | [], _, tr => by simp [walkSeriesPages, M.pure]
  | p :: rest, h, tr => by
      have hp := h p (by simp)
      have ih := walkSeriesPages_spec gw cred muid sid pageResp A rest
        (fun q hq => h q (by simp [hq]))
      simp [walkSeriesPages, M.bind, M.req, M.lift, M.pure,
            User.get_channel_videos_series, User.init, hp.1, hp.2, Json.pyIter, ih]

/-- C3: `del_channel_series`, on a legacy collection id and a credential
carrying both tokens, fetches the collection metadata (one direct fetch),
reads its member total, fetches self info, walks pages
`1 .. ⌈total/20⌉` in increasing order with page size 20 (the source's
`total // 20 + (1 if total % 20 != 0 else 0)` bound equals that ceiling),
and submits a single deletion request whose aid list is the
concatenation, in page order, of the aids of every page. -/
theorem C3_del_series_collects_pages (hf gw : Gateway) (series_id : Int)
    (hid : series_id ≠ -1) (c : Credential)
    (hs : c.sessdata.isSome) (hj : c.bili_jct.isSome)
    (resp d m mmid : Json) (t : Int)
    (hfetch : hf (seriesInfoReq series_id) = .ok resp)
    (hdata : resp.idx "data" = .ok d)
    (hmeta : d.idx "meta" = .ok m)
    (hmmid : m.idx "mid" = .ok mmid)
    (htotal : m.idx "total" = .ok (.num t))
    (si muid : Json)
    (hself : gw getSelfInfoReq = .ok si)
    (hmid : si.idx "mid" = .ok muid)
    (pageResp : Int → Json) (A : Int → List Json)
    (pagesList : List Int)
    (hpl : pagesList = pyRange 1 (t.fdiv 20 + (if t.emod 20 ≠ 0 then 1 else 0) + 1))
    (hpages : ∀ p ∈ pagesList,
       gw (channelVideoSeriesReq muid series_id p 20) = .ok (pageResp p) ∧
       (pageResp p).idx "aids" = .ok (.arr (A p))) :
    (del_channel_series hf gw series_id c).run =
      (gw (delChannelSeriesReq muid series_id ((pagesList.map A).flatten)),
       seriesInfoReq series_id :: getSelfInfoReq ::
         (pagesList.map (fun p => channelVideoSeriesReq muid series_id p 20) ++
          [delChannelSeriesReq muid series_id ((pagesList.map A).flatten)])) ∧
    t.fdiv 20 + (if t.emod 20 ≠ 0 then 1 else 0) = (t + 19) / 20 := by
  constructor
  · subst hpl
    have hw := walkSeriesPages_spec gw c muid series_id pageResp A _ hpages
    simp only [ne_eq, ite_not] at hw
    simp [del_channel_series, ChannelSeries.init, ChannelSeries.get_meta,
          ChannelSeriesType.value, get_self_info, M.run, M.bind, M.req, M.lift,
          M.pure, Credential.raise_for_no_sessdata, Credential.raise_for_no_bili_jct,
          hs, hj, hid, hfetch, hdata, hmeta, hmmid, htotal, Json.asInt, hself, hmid, hw]
  · have hfd : t.fdiv 20 = t / 20 := Int.fdiv_eq_ediv t (by norm_num)
    have hem : t.emod 20 = t % 20 := by rfl
    by_cases h : t % 20 = 0 <;> simp [hfd, hem, h] <;> omega

/-- Closed instance of C3: a collection of 25 members (two pages), every
page answering aids [101, 102]; the deletion request carries
"101,102,101,102". -/
theorem C3_del_series_collects_pages_witness :
    (del_channel_series demoHf demoPageGateway 9 demoCred).run =
      (.ok (.obj [("mid", .num 7), ("aids", .arr [.num 101, .num 102])]),
       seriesInfoReq 9 :: getSelfInfoReq ::
         ([channelVideoSeriesReq (Json.num 7) 9 1 20,
           channelVideoSeriesReq (Json.num 7) 9 2 20] ++
          [delChannelSeriesReq (Json.num 7) 9
             [Json.num 101, Json.num 102, Json.num 101, Json.num 102]])) := by
  have h := (C3_del_series_collects_pages demoHf demoPageGateway 9 (by norm_num)
      demoCred rfl rfl demoSeriesMetaResp _ _ _ 25 rfl rfl rfl rfl rfl
      (Json.obj [("mid", .num 7), ("aids", .arr [.num 101, .num 102])]) (Json.num 7)
      rfl rfl
      (fun _ => Json.obj [("mid", .num 7), ("aids", .arr [.num 101, .num 102])])
      (fun _ => [Json.num 101, Json.num 102])
      [1, 2] (by decide)
      (fun p _ => ⟨rfl, rfl⟩)).1
  exact h

end Bili
